import Mathlib

/-!
Verification development for the Bedrock-server contract-editing pipeline.

The Python sources are embedded shallowly:
  - text is modelled as `List Char` (`Str`); Python string primitives
    (`lower`, `in`, `find`, `strip`, `split`, slicing) are re-implemented
    structurally so that every definition evaluates inside the kernel;
  - the Bedrock network backend is an explicit function from the attempt
    number to either an error message or a parsed response body;
  - `try/except` blocks become `Except` values or explicit error inputs;
  - `time.sleep` calls are recorded as a list of slept durations.
-/

/-- Text is modelled as a list of characters (Python `str`). -/
abbrev Str := List Char

/-- Embed a Lean string literal into the text model. -/
def str (s : String) : Str := s.data

/-- Python `s.lower()` (ASCII). -/
def lowerStr (s : Str) : Str := s.map Char.toLower

/-- Test that `n` is a leading segment of `h` (used to implement substring search). -/
def isPrefixB : Str → Str → Bool
  | [], _ => true
  | _ :: _, [] => false
  | a :: as, b :: bs => a == b && isPrefixB as bs

/-- Python `n in h`: `n` occurs contiguously inside `h`. -/
def isInfixB (n : Str) : Str → Bool
  | [] => n.isEmpty
  | c :: t => isPrefixB n (c :: t) || isInfixB n t

/-- Python `h.endswith(n)`. -/
def isSuffixB (n h : Str) : Bool := isPrefixB n.reverse h.reverse

/-- Python `h.find(n)` for an occurring needle: index of the first
occurrence (`h.length` when absent; all call sites guard with `isInfixB`). -/
def findSub (n : Str) : Str → Nat
  | [] => 0
  | c :: t => if isPrefixB n (c :: t) then 0 else findSub n t + 1

/-- Python `s.strip()` (whitespace at both ends). -/
def stripStr (s : Str) : Str :=
  ((s.dropWhile Char.isWhitespace).reverse.dropWhile Char.isWhitespace).reverse

/-- Worker for `splitOnSep`; the fuel argument only forces structural
termination and is always at least the length of the text. -/
def splitOnSepAux (sep : Str) : Nat → Str → Str → List Str
  | 0, s, cur => [cur.reverse ++ s]
  | fuel + 1, s, cur =>
    match s with
    | [] => [cur.reverse]
    | c :: rest =>
      if isPrefixB sep (c :: rest) then
        cur.reverse :: splitOnSepAux sep fuel ((c :: rest).drop sep.length) []
      else
        splitOnSepAux sep fuel rest (c :: cur)

/-- Python `s.split(sep)` for a non-empty separator (empties are kept). -/
def splitOnSep (sep s : Str) : List Str := splitOnSepAux sep (s.length + 1) s []

/-- Python `sep.join(parts)`. -/
def joinSep (sep : Str) : List Str → Str
  | [] => []
  | [x] => x
  | x :: xs => x ++ sep ++ joinSep sep xs

/-- Worker for `pyWords`. -/
def pyWordsAux : Str → Str → List Str
  | [], cur => if cur.isEmpty then [] else [cur.reverse]
  | c :: t, cur =>
    if c.isWhitespace then
      if cur.isEmpty then pyWordsAux t [] else cur.reverse :: pyWordsAux t []
    else
      pyWordsAux t (c :: cur)

/-- Python `s.split()` with no argument: whitespace-separated words,
empties dropped. -/
def pyWords (s : Str) : List Str := pyWordsAux s []

/-- Python `s.upper() == s` (ASCII). -/
def pyUpperEq (s : Str) : Bool := s.map Char.toUpper == s

/-- Python `s.isupper()` (ASCII): at least one cased character and no
lowercase character. -/
def pyIsUpper (s : Str) : Bool :=
  s.any (fun c => c.isAlpha) && s.all (fun c => !c.isLower)

/-! ## modules/bedrock_integration.py -/

/-- Parsed Bedrock response body: a Mistral outputs list of texts, a
generation body, or an unexpected shape (from which `process_chunk`
extracts the empty string). -/
inductive BedrockResponse
  | outputs (texts : List Str)
  | generation (text : Str)
  | other
deriving DecidableEq

/-- Lines 106-116 of `BedrockClient.process_chunk`: extract the generated text
from the parsed response body, defaulting to the empty string. -/
def extractGenerated : BedrockResponse → Str
  | BedrockResponse.outputs (t :: _) => t
  | BedrockResponse.outputs [] => []
  | BedrockResponse.generation t => t
  | BedrockResponse.other => []

/-- Line 178 of `_call_bedrock_with_retry`: message test for credential/auth
failures. -/
def isCredMsg (m : Str) : Bool :=
  isInfixB (str "UnrecognizedClientException") m ||
  isInfixB (str "InvalidSignatureException") m ||
  isInfixB (str "security token") (lowerStr m)

/-- Line 184 of `_call_bedrock_with_retry`: message test for rate limiting. -/
def isThrottleMsg (m : Str) : Bool :=
  isInfixB (str "ThrottlingException") m ||
  isInfixB (str "TooManyRequestsException") m

/-- Line 191 of `_call_bedrock_with_retry`: message test for service
unavailability. -/
def isUnavailMsg (m : Str) : Bool :=
  isInfixB (str "ServiceUnavailable") m ||
  isInfixB (str "InternalServerError") m

/-- The fresh exception message raised on a credential failure
(`_call_bedrock_with_retry` line 181). -/
def awsCredErrMsg : Str :=
  str "AWS Credentials Error: Invalid or missing AWS credentials. Please configure AWS_ACCESS_KEY_ID, AWS_SECRET_ACCESS_KEY, and ensure Bedrock permissions."

/-- Message for the degenerate `raise last_exception` with no recorded
exception (only reachable when `retries = 0`). -/
def raiseNoneMsg : Str := str "TypeError: exceptions must derive from BaseException"

/-- Loop body of `_call_bedrock_with_retry` (lines 151-206).  The backend is
a function from the attempt number to the outcome of that attempt; the first
component of the result is the returned body or the raised message, the
second the list of `time.sleep` durations in order.  The three retryable
branches (throttling, service unavailable, other AWS error) differ only in
their log line, so they share one arm here. -/
def callAux (backend : Nat → Except Str BedrockResponse) :
    Nat → Nat → Nat → Option Str → List Nat → Except Str BedrockResponse × List Nat
  | 0, _, _, lastExc, sleeps =>
    (Except.error (lastExc.getD raiseNoneMsg), sleeps.reverse)
  | fuel + 1, attempt, backoff, _, sleeps =>
    match backend attempt with
    | Except.ok resp => (Except.ok resp, sleeps.reverse)
    | Except.error msg =>
      if isCredMsg msg then (Except.error awsCredErrMsg, sleeps.reverse)
      else callAux backend fuel (attempt + 1) (backoff * 2) (some msg) (backoff :: sleeps)

/-- Embedding of `BedrockClient._call_bedrock_with_retry` (lines 146-206): up to
`retries` attempts, exponential backoff starting at one second. -/
def call_bedrock_with_retry (backend : Nat → Except Str BedrockResponse)
    (retries : Nat) : Except Str BedrockResponse × List Nat :=
  callAux backend retries 0 1 none []

/-- Embedding of `BedrockClient.process_chunk` (lines 35-144).  The whole body sits in a
`try/except` returning `(chunk, False)` on any exception, so the call result
is consumed as an `Except`; an empty or shorter-than-10-character extracted
text also degrades to `(chunk, False)` (lines 134-139).  The case-insensitive
comparison at lines 127-132 only feeds log output. -/
def process_chunk (backend : Nat → Except Str BedrockResponse) (chunk : Str) :
    Str × Bool :=
  match (call_bedrock_with_retry backend 3).1 with
  | Except.error _ => (chunk, false)
  | Except.ok resp =>
    let generated := extractGenerated resp
    if generated.isEmpty || generated.length < 10 then (chunk, false)
    else (generated, true)

/-! ## modules/text_processing.py -/

/-- The containment-based de-duplication loop closing
`find_instruction_targets` (lines 187-199): a candidate is kept only when no
previously kept target contains it or is contained in it; `acc` is the
`unique_targets` accumulator. -/
def dedupAux : List Str → List Str → List Str
  | acc, [] => acc
  | acc, t :: ts =>
    if acc.any (fun e => isInfixB t e || isInfixB e t) then dedupAux acc ts
    else dedupAux (acc ++ [t]) ts

/-- The de-duplication step of `find_instruction_targets` applied to the
collected target list. -/
def dedup_targets (targets : List Str) : List Str := dedupAux [] targets

/-- Lines 241-246 of `prioritize_chunks`: contract-structure markers. -/
def structure_markers : List Str :=
  [str "section", str "article", str "clause", str "paragraph",
   str "parties", str "agreement", str "witnesseth", str "whereas",
   str "term", str "termination", str "payment", str "services",
   str "obligations", str "governing law", str "liability",
   str "indemnification"]

/-- Scoring of one chunk in `prioritize_chunks` (lines 209-254): +5 for a
fully contained target with positional bonuses +2 (first third) or +1
(middle third); otherwise, for targets longer than 10 characters, +2 for
each contained half; plus +1 per structure marker present. -/
def chunkScore (targets : List Str) (chunk : Str) : Nat :=
  let chunkLower := lowerStr chunk
  let afterTargets := targets.foldl (fun score target =>
    let targetLower := lowerStr target
    if isInfixB targetLower chunkLower then
      let score := score + 5
      let targetPos := findSub targetLower chunkLower
      if targetPos < chunk.length / 3 then score + 2
      else if targetPos < chunk.length * 2 / 3 then score + 1
      else score
    else if 10 < targetLower.length then
      let firstHalf := targetLower.take (targetLower.length / 2)
      let secondHalf := targetLower.drop (targetLower.length / 2)
      let score := if isInfixB firstHalf chunkLower then score + 2 else score
      if isInfixB secondHalf chunkLower then score + 2 else score
    else score) 0
  structure_markers.foldl
    (fun score marker => if isInfixB marker chunkLower then score + 1 else score)
    afterTargets

/-- The `chunk_scores` list of `prioritize_chunks` (lines 208-254): one
`(original index, score)` pair per chunk, in document order. -/
def scoreChunksFrom (targets : List Str) : Nat → List Str → List (Nat × Nat)
  | _, [] => []
  | i, c :: cs => (i, chunkScore targets c) :: scoreChunksFrom targets (i + 1) cs

/-- The sort key of `prioritize_chunks` line 257 (`key = (-score, index)`,
ascending) as a relation on `(index, score)` pairs. -/
def priorityRel (a b : Nat × Nat) : Prop :=
  b.2 < a.2 ∨ (a.2 = b.2 ∧ a.1 ≤ b.1)

instance : DecidableRel priorityRel := fun a b =>
  inferInstanceAs (Decidable (b.2 < a.2 ∨ (a.2 = b.2 ∧ a.1 ≤ b.1)))

instance : IsTotal (Nat × Nat) priorityRel := by
  constructor
  intro a b
  unfold priorityRel
  omega

instance : IsTrans (Nat × Nat) priorityRel := by
  constructor
  intro a b c
  unfold priorityRel
  omega

/-- The sorted `chunk_scores` list (`prioritize_chunks` line 257).  The sort
key is a total order that is antisymmetric on the pairwise-distinct indices
produced by `scoreChunksFrom`, so the stable Python sort and this insertion
sort return the same (unique) sorted permutation. -/
def prioritized_order (chunks targets : List Str) : List (Nat × Nat) :=
  List.insertionSort priorityRel (scoreChunksFrom targets 0 chunks)

/-- Embedding of `prioritize_chunks` (lines 205-270): reorder the chunks by descending
score, ties by original index (`chunks[i] for i in prioritized_indices`). -/
def prioritize_chunks (chunks targets : List Str) : List Str :=
  (prioritized_order chunks targets).map (fun p => chunks.getD p.1 [])

/-! ## modules/job_processing.py -/

/-- The `except` clause of `process_chunk_worker` (lines 219-235): a raised
message containing a credential marker is re-raised as fatal, any other
failure degrades to `(chunk, False)`. -/
def workerExceptBranch (chunk : Str) (call : Except Str (Str × Bool)) :
    Except Str (Str × Bool) :=
  match call with
  | Except.ok r => Except.ok r
  | Except.error msg =>
    if isInfixB (str "AWS Credentials Error") msg ||
       isInfixB (str "security token") (lowerStr msg) then
      Except.error (str "AWS Bedrock credentials error: " ++ msg)
    else Except.ok (chunk, false)

/-- Embedding of `process_chunk_worker` (lines 219-235).  The dispatched call
(`process_chunk_with_change_detection`, which itself wraps
`process_chunk` in a catch-all `try/except` returning `(chunk, False)`)
always returns a value, so the worker body receives `Except.ok` of the
chunk result. -/
def process_chunk_worker (backend : Nat → Except Str BedrockResponse)
    (chunk : Str) : Except Str (Str × Bool) :=
  workerExceptBranch chunk (Except.ok (process_chunk backend chunk))

/-- The `as_completed` collection loop of `process_document`
(lines 244-272): a worker exception aborts the job with that message,
otherwise all chunk results are collected. -/
def processAllChunks (backend : Nat → Except Str BedrockResponse) :
    List Str → Except Str (List (Str × Bool))
  | [] => Except.ok []
  | c :: cs =>
    match process_chunk_worker backend c with
    | Except.error m => Except.error m
    | Except.ok r =>
      match processAllChunks backend cs with
      | Except.error m => Except.error m
      | Except.ok rs => Except.ok (r :: rs)

/-- Job status after the chunk-processing stage (`process_document`
lines 264-288): an escaped worker exception sets `status = error`, otherwise
the job continues in `processing`. -/
def jobStatusAfterChunks (backend : Nat → Except Str BedrockResponse)
    (chunks : List Str) : Str :=
  match processAllChunks backend chunks with
  | Except.ok _ => str "processing"
  | Except.error _ => str "error"

/-- Chunk-list selection in `process_document` (lines 204-211) for a
document already split into chunks: with more than two chunks and a
non-empty target set the dispatched list is the prioritized reordering.
(The small-document branch at line 196 replaces the chunk list upstream and
is outside this stage.) -/
def dispatchOrder (chunks targets : List Str) : List Str :=
  if chunks.length ≤ 2 then chunks
  else if targets.isEmpty then chunks
  else prioritize_chunks chunks targets

/-- The chunk stage of `process_document` (lines 213-275): workers receive
`(chunk, idx)` pairs enumerated over the dispatched (possibly prioritized)
list, completed results are written into the pre-allocated slot `idx` in an
arbitrary completion order, and the final text joins the slots with a
paragraph separator.  `completionOrder` is the order in which the futures
complete; `none` models the `join` failing on an unfilled slot. -/
def chunkStageCombined (backend : Nat → Except Str BedrockResponse)
    (chunks targets : List Str) (completionOrder : List Nat) : Option Str :=
  let dispatch := dispatchOrder chunks targets
  let slots := completionOrder.foldl
    (fun acc idx => acc.set idx (some (process_chunk backend (dispatch.getD idx [])).1))
    (List.replicate dispatch.length (none : Option Str))
  if slots.all Option.isSome then
    some (joinSep (str "\n\n") (slots.map (fun o => o.getD [])))
  else none

/-! ## modules/pdf_utils.py -/

/-- One markup node: a structural wrapper (`tag`, `class`) around a text
content, as produced by `extract_text_as_html` and rebuilt by
`process_html_with_model`. -/
structure HtmlNode where
  tag : Str
  cls : Str
  text : Str
deriving DecidableEq

/-- The parsed original markup handed to the Reconciler
(`BeautifulSoup(html_content)`): the text outside the body (e.g. the
stylesheet) and the children of `body`, `none` when the document has no
`body` element. -/
structure HtmlDoc where
  headText : Str
  bodyNodes : Option (List HtmlNode)
deriving DecidableEq

/-- Python `soup.get_text()`: concatenation of every text node of the document. -/
def docText (d : HtmlDoc) : Str :=
  d.headText ++ (d.bodyNodes.getD []).foldr (fun n acc => n.text ++ acc) []

/-- Response cleaning in `process_html_with_model` (lines 149-158): strip,
unwrap one pair of double quotes, drop markdown code fences, strip again. -/
def cleanResponse (model_response : Str) : Str :=
  let cleaned := stripStr model_response
  let cleaned :=
    if isPrefixB (str "\"") cleaned && isSuffixB (str "\"") cleaned then
      (cleaned.drop 1).take ((cleaned.drop 1).length - 1)
    else cleaned
  let cleaned :=
    if isPrefixB (str "```html") cleaned then cleaned.drop 7 else cleaned
  let cleaned :=
    if isSuffixB (str "```") cleaned then cleaned.take (cleaned.length - 3)
    else cleaned
  stripStr cleaned

/-- The HTML-shape test of `process_html_with_model` (lines 161-162). -/
def isHtmlShaped (s : Str) : Bool :=
  isInfixB (str "<!DOCTYPE") s || isInfixB (str "<html") s ||
  (isInfixB (str "<div") s && isInfixB (str "</div>") s)

/-- Opening part of the default document shell wrapped around a body-only
model response (lines 169-185); the exact stylesheet text is irrelevant to
the claims. -/
def htmlShellPre : Str :=
  str "<!DOCTYPE html><html><head><style>default stylesheet</style></head><body>"

/-- Closing part of the default document shell. -/
def htmlShellPost : Str := str "</body></html>"

/-- Shell wrapping for the direct-HTML path (lines 166-185): responses that
already start with a doctype or an `html` element are used as they are. -/
def wrapIfNeeded (cleaned : Str) : Str :=
  if isPrefixB (str "<!DOCTYPE") cleaned then cleaned
  else if isPrefixB (str "<html") cleaned then cleaned
  else htmlShellPre ++ cleaned ++ htmlShellPost

/-- Signature-block markers of the paragraph classifier (line 224). -/
def sigMarkers : List Str :=
  [str "signature", str "signed by", str "dated", str "by:", str "name:",
   str "title:"]

/-- Element choice for one response paragraph in the plain-text path
(lines 217-237); the new element always carries the paragraph text. -/
def classifyPara (para : Str) : HtmlNode :=
  if pyUpperEq para && (pyWords para).length ≤ 5 then
    ⟨str "h1", str "heading", para⟩
  else if isSuffixB (str ":") para || (pyIsUpper para && (pyWords para).length ≤ 8) then
    ⟨str "h2", str "heading", para⟩
  else if sigMarkers.any (fun w => isInfixB w (lowerStr para)) then
    ⟨str "div", str "signature", para⟩
  else if (match para with
           | c :: _ => c.isDigit && c != '0'
           | [] => false) &&
          (para.take 10).any (fun c => c == '.') then
    ⟨str "div", str "clause", para⟩
  else if isPrefixB (str "    ") para || isPrefixB (str "\t") para then
    ⟨str "div", str "indent", para⟩
  else ⟨str "div", str "paragraph", para⟩

/-- The body rebuilt from the cleaned response in the plain-text path
(lines 210-238): split on blank lines, strip, drop empties, classify. -/
def buildNodes (cleaned : Str) : List HtmlNode :=
  (((splitOnSep (str "\n\n") cleaned).map stripStr).filter
    (fun p => !p.isEmpty)).map classifyPara

/-- Observable outcome of `process_html_with_model`. -/
inductive RecOut
  /-- The model response was HTML-shaped and is used directly (line 188). -/
  | modelHtml (s : Str)
  /-- The original `html_content` is returned unchanged (line 203 length
  bail-out, or the line 251 error fallback). -/
  | keepOriginal
  /-- Result `str(soup)` after the body was cleared and repopulated (line 242). -/
  | rebuiltBody (nodes : List HtmlNode)
  /-- Result `str(soup)` with no body to replace (line 242 with `soup.body` falsy). -/
  | soupUnchanged
deriving DecidableEq

/-- Embedding of `process_html_with_model` (modules/pdf_utils.py lines 143-251).  The
whole body sits in a `try/except` whose handler returns the original
`html_content`; `internalErr` injects an exception raised anywhere inside
the `try` block. -/
def process_html_with_model (orig : HtmlDoc) (model_response : Str)
    (internalErr : Option Str) : RecOut :=
  match internalErr with
  | some _ => RecOut.keepOriginal
  | none =>
    let cleaned := cleanResponse model_response
    if isHtmlShaped cleaned then RecOut.modelHtml (wrapIfNeeded cleaned)
    else
      let originalText := docText orig
      if 10 * cleaned.length < 3 * originalText.length then RecOut.keepOriginal
      else
        match orig.bodyNodes with
        | some _ => RecOut.rebuiltBody (buildNodes cleaned)
        | none => RecOut.soupUnchanged

/-- The pairwise relation maintained by the target de-duplication: neither
text contains the other. -/
def overlapFree (a b : Str) : Prop := (isInfixB a b || isInfixB b a) = false

/-! ## Shared lemmas -/

theorem isPrefixB_refl (s : Str) : isPrefixB s s = true := by
  induction s with
  | nil => rfl
  | cons a as ih => simp [isPrefixB, ih]

theorem isInfixB_refl (s : Str) : isInfixB s s = true := by
  cases s with
  | nil => rfl
  | cons c t => simp [isInfixB, isPrefixB_refl]

theorem overlapFree_symm : Symmetric overlapFree := by
  intro a b h
  unfold overlapFree at *
  rw [Bool.or_comm]
  exact h

theorem dedupAux_pairwise (l : List Str) :
    ∀ acc, List.Pairwise overlapFree acc →
      List.Pairwise overlapFree (dedupAux acc l) := by
  induction l with
  | nil => intro acc hacc; exact hacc
  | cons t ts ih =>
    intro acc hacc
    unfold dedupAux
    by_cases h : acc.any (fun e => isInfixB t e || isInfixB e t) = true
    · rw [if_pos h]
      exact ih acc hacc
    · rw [if_neg h]
      refine ih (acc ++ [t]) ?_
      rw [List.pairwise_append]
      refine ⟨hacc, List.pairwise_singleton _ _, ?_⟩
      intro a ha b hb
      rw [List.mem_singleton] at hb
      subst hb
      have hfalse := (List.any_eq_false.mp (Bool.eq_false_iff.mpr h)) a ha
      unfold overlapFree
      rw [Bool.or_comm]
      simpa using hfalse

theorem dedupAux_of_free (l : List Str) :
    ∀ acc, List.Pairwise overlapFree l →
      (∀ e ∈ acc, ∀ t ∈ l, (isInfixB t e || isInfixB e t) = false) →
      dedupAux acc l = acc ++ l := by
  induction l with
  | nil => intro acc _ _; simp [dedupAux]
  | cons t ts ih =>
    intro acc hpw hok
    unfold dedupAux
    have hany : acc.any (fun e => isInfixB t e || isInfixB e t) = false := by
      rw [List.any_eq_false]
      intro e he
      simpa using hok e he t (List.mem_cons_self t ts)
    rw [hany]
    simp only [Bool.false_eq_true, if_false]
    have hstep := ih (acc ++ [t]) (List.Pairwise.sublist (List.sublist_cons_self t ts) hpw) ?_
    · rw [hstep]
      simp
    · intro e he u hu
      rw [List.mem_append, List.mem_singleton] at he
      cases he with
      | inl hea => exact hok e hea u (List.mem_cons_of_mem t hu)
      | inr het =>
        subst het
        have := (List.pairwise_cons.mp hpw).1 u hu
        unfold overlapFree at this
        rw [Bool.or_comm]
        exact this

theorem processAllChunks_eq_ok (backend : Nat → Except Str BedrockResponse) :
    ∀ chunks : List Str,
      processAllChunks backend chunks
        = Except.ok (chunks.map (process_chunk backend)) := by
  intro chunks
  induction chunks with
  | nil => rfl
  | cons c cs ih =>
    simp [processAllChunks, process_chunk_worker, workerExceptBranch, ih]

theorem classifyPara_text (p : Str) : (classifyPara p).text = p := by
  unfold classifyPara
  repeat' split
  all_goals rfl

theorem scoreChunksFrom_map_getD (targets : List Str) :
    ∀ (post pre : List Str),
      (scoreChunksFrom targets pre.length post).map
          (fun p => (pre ++ post).getD p.1 []) = post := by
  intro post
  induction post with
  | nil => intro pre; rfl
  | cons c cs ih =>
    intro pre
    show ((pre.length, chunkScore targets c) ::
        scoreChunksFrom targets (pre.length + 1) cs).map
          (fun p => (pre ++ c :: cs).getD p.1 []) = c :: cs
    simp only [List.map_cons, List.cons.injEq]
    constructor
    · rw [List.getD_eq_getElem?_getD, List.getElem?_append_right (le_refl pre.length)]
      simp
    · have hsplit : pre ++ c :: cs = (pre ++ [c]) ++ cs := by simp
      have hlen : pre.length + 1 = (pre ++ [c]).length := by simp
      rw [hsplit, hlen]
      exact ih (pre ++ [c])

theorem scoreChunksFrom_le (targets : List Str) :
    ∀ (chunks : List Str) (i : Nat) (p : Nat × Nat),
      p ∈ scoreChunksFrom targets i chunks → i ≤ p.1 := by
  intro chunks
  induction chunks with
  | nil => intro i p hp; cases hp
  | cons c cs ih =>
    intro i p hp
    rw [scoreChunksFrom, List.mem_cons] at hp
    cases hp with
    | inl h => subst h; exact le_refl i
    | inr h => exact Nat.le_of_succ_le (ih (i + 1) p h)

theorem scoreChunksFrom_fst_lt (targets : List Str) :
    ∀ (chunks : List Str) (i : Nat),
      List.Pairwise (fun a b : Nat × Nat => a.1 < b.1)
        (scoreChunksFrom targets i chunks) := by
  intro chunks
  induction chunks with
  | nil => intro i; exact List.Pairwise.nil
  | cons c cs ih =>
    intro i
    rw [scoreChunksFrom]
    refine List.Pairwise.cons ?_ (ih (i + 1))
    intro p hp
    exact Nat.lt_of_succ_le (scoreChunksFrom_le targets cs (i + 1) p hp)

/-! ## Claim theorems -/

/-- C1 (counterexample): a backend response identical, character for
character (hence also case-insensitively), to the input chunk and at least
10 characters long still yields `changed = true`, contradicting the claim
that `changed` is true iff the returned text differs case-insensitively
from the input. -/
theorem c1_changed_flag_cex :
    (process_chunk
        (fun _ => Except.ok (BedrockResponse.outputs [str "Nothing changes in this chunk."]))
        (str "Nothing changes in this chunk.")).2 = true ∧
    (process_chunk
        (fun _ => Except.ok (BedrockResponse.outputs [str "Nothing changes in this chunk."]))
        (str "Nothing changes in this chunk.")).1
      = str "Nothing changes in this chunk." ∧
    lowerStr (process_chunk
        (fun _ => Except.ok (BedrockResponse.outputs [str "Nothing changes in this chunk."]))
        (str "Nothing changes in this chunk.")).1
      = lowerStr (str "Nothing changes in this chunk.") := by
  refine ⟨?_, ?_, ?_⟩ <;> decide

/-- C1 (amended): `BedrockClient.process_chunk` returns `changed = true`
iff the retry call succeeds and the extracted response text is at least 10
characters long; the case-insensitive comparison with the input only feeds
log output and never the flag. -/
theorem c1_changed_iff_long_response
    (backend : Nat → Except Str BedrockResponse) (chunk : Str) :
    (process_chunk backend chunk).2 = true ↔
      ∃ resp, (call_bedrock_with_retry backend 3).1 = Except.ok resp ∧
        10 ≤ (extractGenerated resp).length := by
  unfold process_chunk
  cases h : (call_bedrock_with_retry backend 3).1 with
  | error m => simp
  | ok resp =>
    by_cases hshort :
        ((extractGenerated resp).isEmpty || decide ((extractGenerated resp).length < 10)) = true
    · simp only [hshort, if_true, Except.ok.injEq]
      constructor
      · intro hfalse
        cases hfalse
      · rintro ⟨r, rfl, hlen⟩
        rcases Bool.or_eq_true_iff.mp hshort with he | hl
        · rw [List.isEmpty_iff.mp he] at hlen
          simp at hlen
        · have := of_decide_eq_true hl
          omega
    · simp only [hshort, if_false]
      refine iff_of_true rfl ⟨resp, rfl, ?_⟩
      rcases Bool.or_eq_false_iff.mp (Bool.eq_false_iff.mpr hshort) with ⟨_, hl⟩
      have := of_decide_eq_false hl
      omega

/-- C1 (witness for the amended theorem): a concrete successful call with a
long response is reported as changed. -/
theorem c1_changed_iff_long_response_witness :
    (process_chunk
        (fun _ => Except.ok (BedrockResponse.generation (str "Edited paragraph text.")))
        (str "Original paragraph text.")).2 = true :=
  (c1_changed_iff_long_response
      (fun _ => Except.ok (BedrockResponse.generation (str "Edited paragraph text.")))
      (str "Original paragraph text.")).mpr
    ⟨BedrockResponse.generation (str "Edited paragraph text."), rfl, by decide⟩

/-- C10: whenever `BedrockClient.process_chunk` reports `changed = false`
(on a raised exception, or on an empty or shorter-than-10-character
response), the returned text is exactly the original input chunk. -/
theorem c10_unchanged_returns_original
    (backend : Nat → Except Str BedrockResponse) (chunk : Str)
    (h : (process_chunk backend chunk).2 = false) :
    (process_chunk backend chunk).1 = chunk := by
  unfold process_chunk at *
  cases hc : (call_bedrock_with_retry backend 3).1 with
  | error m => rfl
  | ok resp =>
    rw [hc] at h
    by_cases hshort :
        ((extractGenerated resp).isEmpty || decide ((extractGenerated resp).length < 10)) = true
    · simp only [hshort, if_true]
    · simp only [hshort, if_false] at h
      cases h

/-- C10 (witness): a retry-exhausted call degrades to the original chunk. -/
theorem c10_unchanged_returns_original_witness :
    (process_chunk (fun _ => Except.error (str "InternalServerError"))
        (str "Original chunk text.")).1 = str "Original chunk text." :=
  c10_unchanged_returns_original
    (fun _ => Except.error (str "InternalServerError"))
    (str "Original chunk text.") (by decide)

/-- C5: with `retries = 3`, a call whose backend throttles on the first two
attempts and succeeds on the third performs exactly two retries with sleeps
of 1 s then 2 s and returns the successful body; and when all three attempts
fail with non-credential (retryable) errors, the last error is raised after
sleeps of 1 s, 2 s and 4 s. -/
theorem c5_retry_backoff :
    (∀ (backend : Nat → Except Str BedrockResponse)
        (resp : BedrockResponse) (m0 m1 : Str),
        backend 0 = Except.error m0 → backend 1 = Except.error m1 →
        backend 2 = Except.ok resp →
        isCredMsg m0 = false → isThrottleMsg m0 = true →
        isCredMsg m1 = false → isThrottleMsg m1 = true →
        call_bedrock_with_retry backend 3 = (Except.ok resp, [1, 2])) ∧
    (∀ (backend : Nat → Except Str BedrockResponse) (m0 m1 m2 : Str),
        backend 0 = Except.error m0 → backend 1 = Except.error m1 →
        backend 2 = Except.error m2 →
        isCredMsg m0 = false → isCredMsg m1 = false → isCredMsg m2 = false →
        call_bedrock_with_retry backend 3 = (Except.error m2, [1, 2, 4])) := by
  constructor
  · intro backend resp m0 m1 h0 h1 h2 hc0 _ hc1 _
    unfold call_bedrock_with_retry
    unfold callAux
    rw [h0]
    simp only [hc0, Bool.false_eq_true, if_false]
    unfold callAux
    rw [h1]
    simp only [hc1, Bool.false_eq_true, if_false]
    unfold callAux
    rw [h2]
    simp
  · intro backend m0 m1 m2 h0 h1 h2 hc0 hc1 hc2
    unfold call_bedrock_with_retry
    unfold callAux
    rw [h0]
    simp only [hc0, Bool.false_eq_true, if_false]
    unfold callAux
    rw [h1]
    simp only [hc1, Bool.false_eq_true, if_false]
    unfold callAux
    rw [h2]
    simp only [hc2, Bool.false_eq_true, if_false]
    unfold callAux
    simp

/-- C5 (witness): concrete throttle-throttle-success and
throttle-throttle-throttle backends exercise both parts. -/
theorem c5_retry_backoff_witness :
    call_bedrock_with_retry
        (fun n => if n == 0 then Except.error (str "ThrottlingException A")
          else if n == 1 then Except.error (str "TooManyRequestsException B")
          else Except.ok (BedrockResponse.generation (str "Edited text result."))) 3
      = (Except.ok (BedrockResponse.generation (str "Edited text result.")), [1, 2]) ∧
    call_bedrock_with_retry
        (fun n => if n == 0 then Except.error (str "ThrottlingException A")
          else if n == 1 then Except.error (str "TooManyRequestsException B")
          else Except.error (str "ThrottlingException C")) 3
      = (Except.error (str "ThrottlingException C"), [1, 2, 4]) :=
  ⟨c5_retry_backoff.1
      (fun n => if n == 0 then Except.error (str "ThrottlingException A")
        else if n == 1 then Except.error (str "TooManyRequestsException B")
        else Except.ok (BedrockResponse.generation (str "Edited text result.")))
      (BedrockResponse.generation (str "Edited text result."))
      (str "ThrottlingException A") (str "TooManyRequestsException B")
      rfl rfl rfl (by decide) (by decide) (by decide) (by decide),
   c5_retry_backoff.2
      (fun n => if n == 0 then Except.error (str "ThrottlingException A")
        else if n == 1 then Except.error (str "TooManyRequestsException B")
        else Except.error (str "ThrottlingException C"))
      (str "ThrottlingException A") (str "TooManyRequestsException B")
      (str "ThrottlingException C")
      rfl rfl rfl (by decide) (by decide) (by decide)⟩

/-- C7: any exception raised inside the body of `process_html_with_model`
is caught by its handler, which returns the original markup as the fallback
result; the reconciler therefore never raises to its caller and a failure
inside the reconciliation stage never produces `status = error`. -/
theorem c7_reconcile_never_raises (d : HtmlDoc) (model_response : Str)
    (e : Str) :
    process_html_with_model d model_response (some e) = RecOut.keepOriginal :=
  rfl

/-- C6 (counterexample): an HTML-shaped model response shorter than 30% of
the extracted original text is used directly instead of returning the
original markup unchanged, contradicting the unconditional claim. -/
theorem c6_short_html_response_cex :
    10 * (cleanResponse (str "<div>x</div>")).length <
      3 * (docText ⟨[], some [⟨str "div", str "paragraph",
        str "This original contract paragraph easily exceeds forty characters of content."⟩]⟩).length ∧
    process_html_with_model
        ⟨[], some [⟨str "div", str "paragraph",
          str "This original contract paragraph easily exceeds forty characters of content."⟩]⟩
        (str "<div>x</div>") none ≠ RecOut.keepOriginal := by
  refine ⟨?_, ?_⟩ <;> decide

/-- C6 (amended): whenever the cleaned model response is not HTML-shaped
and its length is below 30% of the extracted original text length,
`process_html_with_model` returns the original markup unchanged (an
HTML-shaped response bypasses the length bail-out and is used directly). -/
theorem c6_short_plain_response_keeps_original (d : HtmlDoc)
    (model_response : Str) (e : Option Str)
    (h1 : isHtmlShaped (cleanResponse model_response) = false)
    (h2 : 10 * (cleanResponse model_response).length < 3 * (docText d).length) :
    process_html_with_model d model_response e = RecOut.keepOriginal := by
  cases e with
  | some m => rfl
  | none =>
    unfold process_html_with_model
    simp only [h1, Bool.false_eq_true, if_false, h2, if_true]

/-- C6 (witness for the amended theorem): a concrete too-short plain
response keeps the original document. -/
theorem c6_short_plain_response_keeps_original_witness :
    process_html_with_model
        ⟨[], some [⟨str "div", str "paragraph",
          str "This original paragraph carries enough characters for the ratio."⟩]⟩
        (str "Too short.") none = RecOut.keepOriginal :=
  c6_short_plain_response_keeps_original
    ⟨[], some [⟨str "div", str "paragraph",
      str "This original paragraph carries enough characters for the ratio."⟩]⟩
    (str "Too short.") none (by decide) (by decide)

/-- C4 (counterexample): in the plain-text path the reconciler clears the
body and inserts a brand-new node for a response line that matches no
original line, while the original node text disappears — new structural
nodes are fabricated and unmatched lines are inserted, contradicting the
claim. -/
theorem c4_fabricated_node_cex :
    process_html_with_model
        ⟨[], some [⟨str "div", str "paragraph", str "Alpha."⟩]⟩
        (str "Bravo charlie delta echo.") none
      = RecOut.rebuiltBody
          [⟨str "div", str "paragraph", str "Bravo charlie delta echo."⟩] ∧
    str "Bravo charlie delta echo." ∉
      ([⟨str "div", str "paragraph", str "Alpha."⟩] : List HtmlNode).map
        HtmlNode.text := by
  refine ⟨?_, ?_⟩ <;> decide

/-- C4 (amended): in the plain-text path (cleaned response not HTML-shaped,
at least 30% of the extracted text length, document has a body), the
reconciler discards the original body entirely and rebuilds it with one
freshly fabricated node per non-empty paragraph of the cleaned response;
the rebuilt node texts are exactly those paragraphs, independent of the
original nodes, and no original wrapper is preserved. -/
theorem c4_plain_text_path_rebuilds_body (d : HtmlDoc) (model_response : Str)
    (ns : List HtmlNode)
    (h1 : isHtmlShaped (cleanResponse model_response) = false)
    (h2 : ¬ 10 * (cleanResponse model_response).length < 3 * (docText d).length)
    (h3 : d.bodyNodes = some ns) :
    process_html_with_model d model_response none
        = RecOut.rebuiltBody (buildNodes (cleanResponse model_response)) ∧
    (buildNodes (cleanResponse model_response)).map HtmlNode.text
        = ((splitOnSep (str "\n\n") (cleanResponse model_response)).map
            stripStr).filter (fun p => !p.isEmpty) := by
  constructor
  · unfold process_html_with_model
    simp only [h1, Bool.false_eq_true, if_false, h2, if_true, h3]
  · unfold buildNodes
    rw [List.map_map]
    have hcomp : HtmlNode.text ∘ classifyPara = id := by
      funext p
      exact classifyPara_text p
    rw [hcomp, List.map_id]

/-- C4 (witness for the amended theorem): a concrete two-paragraph plain
response rebuilds the body with two fabricated nodes. -/
theorem c4_plain_text_path_rebuilds_body_witness :
    process_html_with_model
        ⟨[], some [⟨str "div", str "paragraph", str "Old."⟩]⟩
        (str "First updated paragraph.\n\nSecond updated paragraph.") none
      = RecOut.rebuiltBody (buildNodes (cleanResponse
          (str "First updated paragraph.\n\nSecond updated paragraph."))) ∧
    (buildNodes (cleanResponse
        (str "First updated paragraph.\n\nSecond updated paragraph."))).map
        HtmlNode.text
      = ((splitOnSep (str "\n\n") (cleanResponse
          (str "First updated paragraph.\n\nSecond updated paragraph."))).map
          stripStr).filter (fun p => !p.isEmpty) :=
  c4_plain_text_path_rebuilds_body
    ⟨[], some [⟨str "div", str "paragraph", str "Old."⟩]⟩
    (str "First updated paragraph.\n\nSecond updated paragraph.")
    [⟨str "div", str "paragraph", str "Old."⟩]
    (by decide) (by decide) rfl

/-- C3 (code bug): the claimed credential fail-fast never happens.
`BedrockClient.process_chunk` catches the credential exception raised by
`_call_bedrock_with_retry` and returns `(chunk, False)` like every other
failure, so the credential re-raise branch of `process_chunk_worker` is
unreachable and the chunk stage never sets `status = error` — shown in
general and at a concrete credential-failing backend. -/
theorem c3_credential_error_not_fail_fast :
    (∀ (backend : Nat → Except Str BedrockResponse) (chunks : List Str),
        jobStatusAfterChunks backend chunks = str "processing") ∧
    isCredMsg (str "UnrecognizedClientException: The security token included in the request is invalid") = true ∧
    process_chunk
        (fun _ => Except.error (str "UnrecognizedClientException: The security token included in the request is invalid"))
        (str "Chunk text to edit.")
      = (str "Chunk text to edit.", false) ∧
    jobStatusAfterChunks
        (fun _ => Except.error (str "UnrecognizedClientException: The security token included in the request is invalid"))
        [str "Chunk text to edit."]
      = str "processing" := by
  refine ⟨?_, by decide, by decide, by decide⟩
  intro backend chunks
  simp [jobStatusAfterChunks, processAllChunks_eq_ok]

/-- C2 (code bug): after prioritization the worker index is the position in
the prioritized list, so the aggregated text concatenates chunk results in
prioritized dispatch order, not in original document order (it is, however,
independent of the completion order).  Concretely, three chunks with a
target matching the third aggregate as third-first-second. -/
theorem c2_aggregation_in_priority_order :
    dispatchOrder [str "alpha one", str "bravo two", str "gamma three"]
        [str "gamma three"]
      = [str "gamma three", str "alpha one", str "bravo two"] ∧
    chunkStageCombined (fun _ => Except.error (str "InternalServerError"))
        [str "alpha one", str "bravo two", str "gamma three"]
        [str "gamma three"] [0, 1, 2]
      = some (str "gamma three\n\nalpha one\n\nbravo two") ∧
    chunkStageCombined (fun _ => Except.error (str "InternalServerError"))
        [str "alpha one", str "bravo two", str "gamma three"]
        [str "gamma three"] [2, 0, 1]
      = some (str "gamma three\n\nalpha one\n\nbravo two") ∧
    str "gamma three\n\nalpha one\n\nbravo two"
      ≠ joinSep (str "\n\n")
          [str "alpha one", str "bravo two", str "gamma three"] := by
  refine ⟨?_, ?_, ?_, ?_⟩ <;> decide

/-- C9: the containment-based target de-duplication ending
`find_instruction_targets` is idempotent, and any text that is strictly
contained in a retained target (contained in it, but not containing it) is
never itself retained. -/
theorem c9_dedup_idempotent (targets : List Str) :
    dedup_targets (dedup_targets targets) = dedup_targets targets ∧
    ∀ x r, r ∈ dedup_targets targets → isInfixB x r = true →
      isInfixB r x = false → x ∉ dedup_targets targets := by
  have hpw : List.Pairwise overlapFree (dedup_targets targets) :=
    dedupAux_pairwise targets [] List.Pairwise.nil
  constructor
  · have h := dedupAux_of_free (dedup_targets targets) [] hpw
      (by intro e he; cases he)
    simpa [dedup_targets] using h
  · intro x r hr hxr hrx hx
    have hne : x ≠ r := by
      intro heq
      subst heq
      rw [isInfixB_refl] at hrx
      cases hrx
    have hfree := hpw.forall overlapFree_symm hx hr hne
    unfold overlapFree at hfree
    rw [hxr] at hfree
    simp at hfree

/-- C9 (witness): de-duplicating a target list where the second target is a
strict substring of the first is idempotent and drops the substring. -/
theorem c9_dedup_idempotent_witness :
    dedup_targets (dedup_targets [str "gamma three", str "three"])
        = dedup_targets [str "gamma three", str "three"] ∧
    str "three" ∉ dedup_targets [str "gamma three", str "three"] :=
  ⟨(c9_dedup_idempotent [str "gamma three", str "three"]).1,
   (c9_dedup_idempotent [str "gamma three", str "three"]).2
     (str "three") (str "gamma three") (by decide) (by decide) (by decide)⟩

/-- C8: for a non-empty chunk list, `prioritize_chunks` returns a
permutation of its input (same multiset, nothing dropped, duplicated or
resized), its sorted score list is strictly ordered by descending score
with ties broken by ascending original index, and the output reads the
chunks off that order. -/
theorem c8_prioritize_perm_and_order (chunks targets : List Str)
    (h : chunks ≠ []) :
    (prioritize_chunks chunks targets).Perm chunks ∧
    List.Pairwise (fun a b : Nat × Nat => b.2 < a.2 ∨ (a.2 = b.2 ∧ a.1 < b.1))
      (prioritized_order chunks targets) ∧
    prioritize_chunks chunks targets
      = (prioritized_order chunks targets).map (fun p => chunks.getD p.1 []) := by
  have hperm : (prioritized_order chunks targets).Perm
      (scoreChunksFrom targets 0 chunks) :=
    List.perm_insertionSort priorityRel (scoreChunksFrom targets 0 chunks)
  refine ⟨?_, ?_, rfl⟩
  · have h1 := hperm.map (fun p : Nat × Nat => chunks.getD p.1 [])
    have h2 : (scoreChunksFrom targets 0 chunks).map
        (fun p : Nat × Nat => chunks.getD p.1 []) = chunks := by
      have h3 := scoreChunksFrom_map_getD targets chunks []
      simpa using h3
    rw [h2] at h1
    exact h1
  · have hsorted := List.sorted_insertionSort priorityRel
      (scoreChunksFrom targets 0 chunks)
    have hsorted2 : List.Pairwise priorityRel (prioritized_order chunks targets) :=
      hsorted
    have hlt := scoreChunksFrom_fst_lt targets chunks 0
    have hndfst : ((scoreChunksFrom targets 0 chunks).map Prod.fst).Nodup :=
      List.pairwise_map.mpr (hlt.imp fun hab => Nat.ne_of_lt hab)
    have hnd2 : ((prioritized_order chunks targets).map Prod.fst).Nodup :=
      ((hperm.map Prod.fst).nodup_iff).mpr hndfst
    have hne : List.Pairwise (fun a b : Nat × Nat => a.1 ≠ b.1)
        (prioritized_order chunks targets) := List.pairwise_map.mp hnd2
    refine (hsorted2.and hne).imp ?_
    intro a b h'
    rcases h' with ⟨hpr, hab⟩
    rcases hpr with hlt2 | ⟨heq, hle⟩
    · exact Or.inl hlt2
    · exact Or.inr ⟨heq, lt_of_le_of_ne hle hab⟩

/-- C8 (witness): the theorem applied to a concrete two-chunk list with no
targets. -/
theorem c8_prioritize_perm_and_order_witness :
    (prioritize_chunks [str "alpha", str "beta"] []).Perm
        [str "alpha", str "beta"] ∧
    List.Pairwise (fun a b : Nat × Nat => b.2 < a.2 ∨ (a.2 = b.2 ∧ a.1 < b.1))
      (prioritized_order [str "alpha", str "beta"] []) ∧
    prioritize_chunks [str "alpha", str "beta"] []
      = (prioritized_order [str "alpha", str "beta"] []).map
          (fun p => ([str "alpha", str "beta"] : List Str).getD p.1 []) :=
  c8_prioritize_perm_and_order [str "alpha", str "beta"] [] (by decide)
